import Mathlib

/-!
Verification of the CourantInstituteNYUHyperloop telemetry service
(`src/web_service_laptop/pc_database.js` and `src/web_service_laptop/pc_server.js`)
against its natural-language specification.

The JavaScript is shallowly embedded: the per-metric MongoDB collections are
modelled as Lean lists kept in insertion order (MongoDB assigns monotonically
increasing internal `_id`s, so a `findOne` with `sort: { _id: -1 }` returns the
most-recently-inserted matching document, i.e. the last matching element of the
list), thrown JavaScript values become an error type carried by `Except`, and
each Express route handler becomes a pure function from request data and server
state to an HTTP response and a new state.
-/

deriving instance DecidableEq for Except

/-- One stored document, as inserted by `writeTemp`/`writeDist`/`writeSpeed`
(pc_database.js lines 77-126): `{sensorID, sensorValue, seqNum}`, all strings. -/
structure Reading where
  sensorID : String
  sensorValue : String
  seqNum : String
deriving DecidableEq, Repr

/-- The object returned by `readLastTemp`/`readLastDist`/`readLastSpeed`
(pc_database.js lines 92, 113, 134): `{sensorValue, seqNum}`. -/
structure ReadResult where
  sensorValue : String
  seqNum : String
deriving DecidableEq, Repr

/-- A thrown JavaScript value as the server distinguishes them in `getError`
(pc_server.js lines 268-298): either a domain error object
`{isDomain: true, errorCode, message}`, or any other thrown value (a plain
string, a TypeError, a driver error, ...) observed via its `toString()`. -/
inductive JSError where
  | domain (errorCode : String) (message : String)
  | nonDomain (toStr : String)
deriving DecidableEq, Repr

/-- The contents of the three collections owned by a `GNCDatabase` instance
(`this.tempCollection`, `this.distCollection`, `this.speedCollection`,
pc_database.js lines 36-38), each in insertion order. -/
structure GNCState where
  tempDocs : List Reading
  distDocs : List Reading
  speedDocs : List Reading
deriving DecidableEq, Repr

/-- `findOne({sensorID: sensorId}, { sort: { _id: -1 }, limit: 1 })`
(pc_database.js lines 88, 109, 130): with the internal `_id` monotone in
insertion order, sorting it descending returns the most-recently-inserted
document whose `sensorID` matches, i.e. the last matching list element. -/
def findLastBySensor (docs : List Reading) (sensorId : String) : Option Reading :=
  docs.reverse.find? (fun d => d.sensorID == sensorId)

/-- The string thrown by every `readLast*` catch block (pc_database.js
lines 95, 116, 137). -/
def readFailureMsg (databaseName collection : String) : String :=
  "One or more errors in reading Database: " ++ databaseName ++ " Collection: " ++ collection

/-- The string thrown by every `write*` catch block (pc_database.js
lines 82, 103, 124). -/
def writeFailureMsg (databaseName collection : String) : String :=
  "One or more errors in writing Database: " ++ databaseName ++ " Collection: " ++ collection

/-- `GNCDatabase.writeTemp` (pc_database.js lines 77-84), fault-free run:
`insertOne` appends one document to the Temperature collection. -/
def GNCDatabase.writeTemp (db : GNCState) (sensorId sensorValue seqNum : String) : GNCState :=
  { db with tempDocs := db.tempDocs ++ [⟨sensorId, sensorValue, seqNum⟩] }

/-- `GNCDatabase.writeDist` (pc_database.js lines 98-105), fault-free run. -/
def GNCDatabase.writeDist (db : GNCState) (sensorId sensorValue seqNum : String) : GNCState :=
  { db with distDocs := db.distDocs ++ [⟨sensorId, sensorValue, seqNum⟩] }

/-- `GNCDatabase.writeSpeed` (pc_database.js lines 119-126), fault-free run. -/
def GNCDatabase.writeSpeed (db : GNCState) (sensorId sensorValue seqNum : String) : GNCState :=
  { db with speedDocs := db.speedDocs ++ [⟨sensorId, sensorValue, seqNum⟩] }

/-- `GNCDatabase.readLastTemp` (pc_database.js lines 86-97), with `ioFault`
selecting whether the underlying `findOne` rejects with a driver error.
The body first runs the `try` block: on an I/O fault the driver error is
thrown; otherwise a `null` result makes it throw the string
`No document satisfies the query - readLastTemp() sensorID <id>`.
Either throw lands in the same `catch`, which replaces it with the single
generic string of `readFailureMsg` — a non-domain error. -/
def GNCDatabase.readLastTempGen (ioFault : Bool) (databaseName : String)
    (db : GNCState) (sensorId : String) : Except JSError ReadResult :=
  let attempt : Except JSError ReadResult :=
    if ioFault then .error (.nonDomain "MongoNetworkError")
    else
      match findLastBySensor db.tempDocs sensorId with
      | none => .error (.nonDomain
          ("No document satisfies the query - readLastTemp() sensorID " ++ sensorId))
      | some document => .ok ⟨document.sensorValue, document.seqNum⟩
  match attempt with
  | .ok r => .ok r
  | .error _ => .error (.nonDomain (readFailureMsg databaseName "temperature"))

/-- `GNCDatabase.readLastTemp` on the fault-free path. -/
def GNCDatabase.readLastTemp (databaseName : String) (db : GNCState)
    (sensorId : String) : Except JSError ReadResult :=
  GNCDatabase.readLastTempGen false databaseName db sensorId

/-- `GNCDatabase.readLastDist` (pc_database.js lines 107-118), with fault flag. -/
def GNCDatabase.readLastDistGen (ioFault : Bool) (databaseName : String)
    (db : GNCState) (sensorId : String) : Except JSError ReadResult :=
  let attempt : Except JSError ReadResult :=
    if ioFault then .error (.nonDomain "MongoNetworkError")
    else
      match findLastBySensor db.distDocs sensorId with
      | none => .error (.nonDomain
          ("No document satisfies the query - readLastDist() sensorID " ++ sensorId))
      | some document => .ok ⟨document.sensorValue, document.seqNum⟩
  match attempt with
  | .ok r => .ok r
  | .error _ => .error (.nonDomain (readFailureMsg databaseName "distance"))

/-- `GNCDatabase.readLastDist` on the fault-free path. -/
def GNCDatabase.readLastDist (databaseName : String) (db : GNCState)
    (sensorId : String) : Except JSError ReadResult :=
  GNCDatabase.readLastDistGen false databaseName db sensorId

/-- `GNCDatabase.readLastSpeed` (pc_database.js lines 128-139), with fault flag. -/
def GNCDatabase.readLastSpeedGen (ioFault : Bool) (databaseName : String)
    (db : GNCState) (sensorId : String) : Except JSError ReadResult :=
  let attempt : Except JSError ReadResult :=
    if ioFault then .error (.nonDomain "MongoNetworkError")
    else
      match findLastBySensor db.speedDocs sensorId with
      | none => .error (.nonDomain
          ("No document satisfies the query - readLastSpeed() sensorID " ++ sensorId))
      | some document => .ok ⟨document.sensorValue, document.seqNum⟩
  match attempt with
  | .ok r => .ok r
  | .error _ => .error (.nonDomain (readFailureMsg databaseName "speed"))

/-- `GNCDatabase.readLastSpeed` on the fault-free path. -/
def GNCDatabase.readLastSpeed (databaseName : String) (db : GNCState)
    (sensorId : String) : Except JSError ReadResult :=
  GNCDatabase.readLastSpeedGen false databaseName db sensorId

/-- `GNCDatabase.clear` (pc_database.js lines 62-72): lists every collection of
the database and drops each one (the `while` loop visits every entry of the
name array). A dropped collection is indistinguishable from an empty one to the
`findOne`/`insertOne` calls modelled here, so the state maps to all-empty. -/
def GNCDatabase.clear (_db : GNCState) : GNCState :=
  ⟨[], [], []⟩

/-- The collection names passed to `createCollection` by `init`
(pc_database.js lines 36-38), in order. -/
def initCollectionNames : List String :=
  ["Temperature", "Distance", "Speed"]

/-- `GNCDatabase.init` after a successful connection (pc_database.js
lines 19-54): starts from fresh collections and performs the twelve seeding
writes of lines 40-53 in source order. -/
def GNCDatabase.init : GNCState :=
  let db0 : GNCState := ⟨[], [], []⟩
  let db1 := GNCDatabase.writeTemp db0 "1" "-1" "0"
  let db2 := GNCDatabase.writeTemp db1 "2" "-1" "0"
  let db3 := GNCDatabase.writeTemp db2 "3" "-1" "0"
  let db4 := GNCDatabase.writeTemp db3 "4" "-1" "0"
  let db5 := GNCDatabase.writeDist db4 "1" "-1" "0"
  let db6 := GNCDatabase.writeDist db5 "2" "-1" "0"
  let db7 := GNCDatabase.writeDist db6 "3" "-1" "0"
  let db8 := GNCDatabase.writeDist db7 "4" "-1" "0"
  let db9 := GNCDatabase.writeSpeed db8 "1" "-1" "0"
  let db10 := GNCDatabase.writeSpeed db9 "2" "-1" "0"
  let db11 := GNCDatabase.writeSpeed db10 "3" "-1" "0"
  GNCDatabase.writeSpeed db11 "4" "-1" "0"

/-! ## HTTP layer (`pc_server.js`) -/

def OK : Nat := 200
def CREATED : Nat := 201
def BAD_REQUEST : Nat := 400
def NOT_FOUND : Nat := 404
def CONFLICT : Nat := 409
def SERVER_ERROR : Nat := 500

/-- The `{status, code, message}` object built by `getError`
(pc_server.js lines 284-295). -/
structure ErrorReport where
  status : Nat
  code : String
  message : String
deriving DecidableEq, Repr

/-- `getError` (pc_server.js lines 268-298): domain errors are dispatched on
`errorCode` (`NOT_FOUND` → 404, `EXISTS` → 409, default → 400) keeping their
code and message; any other thrown value becomes
`{status: 500, code: "INTERNAL", message: err.toString()}`. -/
def getError : JSError → ErrorReport
  | .domain errorCode message =>
    let statusType : Nat :=
      if errorCode = "NOT_FOUND" then NOT_FOUND
      else if errorCode = "EXISTS" then CONFLICT
      else BAD_REQUEST
    ⟨statusType, errorCode, message⟩
  | .nonDomain s => ⟨SERVER_ERROR, "INTERNAL", s⟩

/-- The JSON (or plain-text) payload a route handler sends. -/
inductive ResponseBody where
  | readingJson (r : ReadResult)
  | urlJson (u : String)
  | reportJson (e : ErrorReport)
  | plainText (t : String)
deriving DecidableEq, Repr

/-- An HTTP response: the status code set on `res` and the body sent. -/
structure HttpResponse where
  status : Nat
  body : ResponseBody
deriving DecidableEq, Repr

/-- The presence test the routes apply to a request parameter
(e.g. pc_server.js lines 72, 98-100): the parameter is `undefined`
(modelled `none`) or its `length` is `0`. -/
def paramMissing : Option String → Bool
  | none => true
  | some s => s.length == 0

/-- Response for a caught error: `res.status(report.status).json(report)`. -/
def sendReport (report : ErrorReport) : HttpResponse :=
  ⟨report.status, .reportJson report⟩

/-- `getTemp` route handler (pc_server.js lines 69-92) for `GET /temp/:sensorId`:
missing/empty `sensorId` throws a domain `BAD_REQUEST`; otherwise the result of
`readLastTemp` is sent with 200, and any thrown error goes through `getError`. -/
def getTemp (databaseName : String) (db : GNCState) (sensorId : Option String) :
    HttpResponse :=
  if paramMissing sensorId then
    sendReport (getError (.domain "BAD_REQUEST" "Incorrect url, try like > /temp/1"))
  else
    match GNCDatabase.readLastTemp databaseName db (sensorId.getD "") with
    | .ok returnObj => ⟨OK, .readingJson returnObj⟩
    | .error err => sendReport (getError err)

/-- `getDist` route handler (pc_server.js lines 123-146). -/
def getDist (databaseName : String) (db : GNCState) (sensorId : Option String) :
    HttpResponse :=
  if paramMissing sensorId then
    sendReport (getError (.domain "BAD_REQUEST" "Incorrect url, try like > /dist/1"))
  else
    match GNCDatabase.readLastDist databaseName db (sensorId.getD "") with
    | .ok returnObj => ⟨OK, .readingJson returnObj⟩
    | .error err => sendReport (getError err)

/-- `getSpeed` route handler (pc_server.js lines 176-199). -/
def getSpeed (databaseName : String) (db : GNCState) (sensorId : Option String) :
    HttpResponse :=
  if paramMissing sensorId then
    sendReport (getError (.domain "BAD_REQUEST" "Incorrect url, try like > /speed/1"))
  else
    match GNCDatabase.readLastSpeed databaseName db (sensorId.getD "") with
    | .ok returnObj => ⟨OK, .readingJson returnObj⟩
    | .error err => sendReport (getError err)

/-- One record of the FileWriter side log: a completed
`processor.writeFile(metric, sensorId, value)` call. -/
structure FileLogEntry where
  metric : String
  sensorId : String
  value : String
deriving DecidableEq, Repr

/-- The mutable state a write route can touch: the database collections and the
FileWriter side log. -/
structure ServerState where
  db : GNCState
  fileLog : List FileLogEntry
deriving DecidableEq, Repr

/-- The query string of a write route: each field is `none` when the
parameter is absent from the URL. -/
structure Query where
  sensorId : Option String
  value : Option String
  seqNum : Option String
deriving DecidableEq, Repr

/-- `setTemp` route handler (pc_server.js lines 94-122) for `GET /temp?`:
if any of `sensorId`, `value`, `seqNum` is `undefined` or empty, a domain
`BAD_REQUEST` is thrown before any storage call; otherwise
`processor.writeFile` runs, then `pcDatabase.writeTemp`, and a 201 with the
echoed URL is sent. -/
def setTemp (st : ServerState) (q : Query) : HttpResponse × ServerState :=
  if paramMissing q.sensorId || paramMissing q.value || paramMissing q.seqNum then
    (sendReport (getError (.domain "BAD_REQUEST"
      "Incorrect url, try like > /temp?sensorId=1&value=26&seqNum=0")), st)
  else
    let sensorId := q.sensorId.getD ""
    let value := q.value.getD ""
    let seqNum := q.seqNum.getD ""
    let fileLog := st.fileLog ++ [⟨"temp", sensorId, value⟩]
    let db := GNCDatabase.writeTemp st.db sensorId value seqNum
    (⟨CREATED, .urlJson
        ("/temp?sensorId=" ++ sensorId ++ "&value=" ++ value ++ "&seqNum=" ++ seqNum)⟩,
     ⟨db, fileLog⟩)

/-- `setDist` route handler (pc_server.js lines 148-175). -/
def setDist (st : ServerState) (q : Query) : HttpResponse × ServerState :=
  if paramMissing q.sensorId || paramMissing q.value || paramMissing q.seqNum then
    (sendReport (getError (.domain "BAD_REQUEST"
      "Incorrect url, try like > /dist?sensorId=1&value=26&seqNum=0")), st)
  else
    let sensorId := q.sensorId.getD ""
    let value := q.value.getD ""
    let seqNum := q.seqNum.getD ""
    let fileLog := st.fileLog ++ [⟨"dist", sensorId, value⟩]
    let db := GNCDatabase.writeDist st.db sensorId value seqNum
    (⟨CREATED, .urlJson
        ("/dist?sensorId=" ++ sensorId ++ "&value=" ++ value ++ "&seqNum=" ++ seqNum)⟩,
     ⟨db, fileLog⟩)

/-- `setSpeed` route handler (pc_server.js lines 201-228). -/
def setSpeed (st : ServerState) (q : Query) : HttpResponse × ServerState :=
  if paramMissing q.sensorId || paramMissing q.value || paramMissing q.seqNum then
    (sendReport (getError (.domain "BAD_REQUEST"
      "Incorrect url, try like > /speed?sensorId=1&value=26&seqNum=0")), st)
  else
    let sensorId := q.sensorId.getD ""
    let value := q.value.getD ""
    let seqNum := q.seqNum.getD ""
    let fileLog := st.fileLog ++ [⟨"speed", sensorId, value⟩]
    let db := GNCDatabase.writeSpeed st.db sensorId value seqNum
    (⟨CREATED, .urlJson
        ("/speed?sensorId=" ++ sensorId ++ "&value=" ++ value ++ "&seqNum=" ++ seqNum)⟩,
     ⟨db, fileLog⟩)

/-- The method names declared on `class GNCDatabase` (pc_database.js
lines 9-140); a property access with any other name yields `undefined`. -/
def gncDatabaseMethodNames : List String :=
  ["constructor", "init", "close", "clear", "createCollection",
   "writeTemp", "readLastTemp", "writeDist", "readLastDist",
   "writeSpeed", "readLastSpeed"]

/-- `clearDatabase` route handler (pc_server.js lines 256-266) for
`GET /clearDB`: the body invokes `app.locals.pcDatabase.clearDatabase()`.
When that property is a declared method the awaited call would run and a
successful clear answers `"GOOD"`; the lookup of an undeclared name yields
`undefined`, the call expression throws a TypeError inside the `try`, and the
`catch` answers `"BAD"` (with the default 200 status of `res.send`). -/
def clearDatabase (st : ServerState) : HttpResponse × ServerState :=
  if gncDatabaseMethodNames.contains "clearDatabase" then
    (⟨OK, .plainText "GOOD"⟩, { st with db := GNCDatabase.clear st.db })
  else
    (⟨OK, .plainText "BAD"⟩, st)

/-! ## Connection lifecycle (`GNCDatabase.close`) -/

/-- The `this.mongoDBConnection` slot of a `GNCDatabase` instance: `none` when
it was never assigned (so `this.mongoDBConnection != null` is false, since
`undefined != null` is false under loose equality), `some true` for a client
whose connection is open, `some false` for one already closed. -/
structure ConnState where
  mongoDBConnection : Option Bool
deriving DecidableEq, Repr

/-- `MongoClient.prototype.close` of the mongodb 3.x driver used here: the
returned promise resolves (never rejects) and leaves the client closed,
whether or not it was still connected — the driver treats closing an
already-closed client as a no-op. -/
def mongoClientClose (_isConnectedNow : Bool) : Except JSError Bool :=
  .ok false

/-- `GNCDatabase.close` (pc_database.js lines 56-60): calls the driver close
only when `this.mongoDBConnection != null`, then logs; the slot is never
reset, so a later call goes to the driver again. -/
def GNCDatabase.close (c : ConnState) : Except JSError ConnState :=
  match c.mongoDBConnection with
  | none => .ok c
  | some b =>
    match mongoClientClose b with
    | .ok b2 => .ok ⟨some b2⟩
    | .error e => .error e

/-! ## Constructor and module-level regexes -/

/-- JavaScript `\w`: ASCII letters, digits and underscore. -/
def isWordChar (c : Char) : Bool :=
  (('a' ≤ c && c ≤ 'z') || ('A' ≤ c && c ≤ 'Z') || ('0' ≤ c && c ≤ '9') || c = '_')

/-- Whether `REG_DATABASE_NAME = /\/(\w+)$/` matches at position `i` of `s`:
a `/` at `i` followed by one or more word characters running to the end of the
input (the non-multiline `$`). -/
def dbNameMatchAt (s : List Char) (i : Nat) : Bool :=
  match s.drop i with
  | '/' :: rest => !rest.isEmpty && rest.all isWordChar
  | _ => false

/-- The leftmost match position of `REG_DATABASE_NAME` at or after `lastIndex`. -/
def dbNameFindFrom (s : List Char) (lastIndex : Nat) : Option Nat :=
  (List.range s.length).find? (fun i => lastIndex ≤ i && dbNameMatchAt s i)

/-- `REG_DATABASE_NAME.exec` (pc_database.js line 156, `/\/(\w+)$/g`): with the
`g` flag the search starts at the regex object's retained `lastIndex`. On a
match the capture `\w+` is the suffix after the `/` and, because the match
runs to `$`, `lastIndex` advances to the input length; on failure `exec`
returns `null` and resets `lastIndex` to `0`. Returns (capture, new
lastIndex). -/
def regDatabaseNameExec (lastIndex : Nat) (s : List Char) : Option String × Nat :=
  match dbNameFindFrom s lastIndex with
  | some i => (some ⟨s.drop (i + 1)⟩, s.length)
  | none => (none, 0)

/-- The end position of the greedy `(^.*)\/` match of `REG_SERVER_URL`: the
position just after the last `/` whose prefix contains no newline (`.` does
not match a line terminator). `none` when no such `/` exists. -/
def serverUrlMatchEnd (s : List Char) : Option Nat :=
  ((List.range s.length).filter
    (fun j => (s.getD j ' ' == '/') && (s.take j).all (fun c => c != '\n'))).getLast?.map
    (fun j => j + 1)

/-- `REG_SERVER_URL.exec` (pc_database.js line 158, `/(^.*)\//g`): the `^`
anchor only matches at position 0, so with the `g` flag a nonzero retained
`lastIndex` makes `exec` fail (returning `null` and resetting `lastIndex`).
On success the capture is everything before the last `/` and `lastIndex`
advances past that `/`. -/
def regServerUrlExec (lastIndex : Nat) (s : List Char) : Option String × Nat :=
  if lastIndex = 0 then
    match serverUrlMatchEnd s with
    | some e => (some ⟨s.take (e - 1)⟩, e)
    | none => (none, 0)
  else (none, 0)

/-- The mutable `lastIndex` fields of the two module-level global-flag regexes
(pc_database.js lines 156-158); module state shared by every construction. -/
structure RegexState where
  dbNameLastIndex : Nat
  serverUrlLastIndex : Nat
deriving DecidableEq, Repr

/-- The fields a successful construction assigns (pc_database.js lines 15-16). -/
structure GNCConfig where
  databaseName : String
  serverUrl : String
deriving DecidableEq, Repr

/-- `new GNCDatabase(dbUrl)` (pc_database.js lines 11-17): line 12 destructures
`REG_DATABASE_NAME.exec(dbUrl)` — when `exec` returns `null` the destructuring
throws a TypeError (modelled as `none`) and line 13 never runs; otherwise
line 13 destructures `REG_SERVER_URL.exec(dbUrl)` the same way. Both regexes
retain their `lastIndex` across constructions. -/
def GNCDatabase.construct (dbUrl : String) (rs : RegexState) :
    Option GNCConfig × RegexState :=
  let s := dbUrl.data
  let r1 := regDatabaseNameExec rs.dbNameLastIndex s
  match r1.1 with
  | none => (none, ⟨r1.2, rs.serverUrlLastIndex⟩)
  | some databaseName =>
    let r2 := regServerUrlExec rs.serverUrlLastIndex s
    match r2.1 with
    | none => (none, ⟨r1.2, r2.2⟩)
    | some serverUrl => (some ⟨databaseName, serverUrl⟩, ⟨r1.2, r2.2⟩)

/-! ## Helper lemmas -/

/-- The Temperature collection right after `init` holds exactly the four
seeding writes. -/
lemma init_tempDocs : GNCDatabase.init.tempDocs =
    [⟨"1", "-1", "0"⟩, ⟨"2", "-1", "0"⟩, ⟨"3", "-1", "0"⟩, ⟨"4", "-1", "0"⟩] := by
  decide

/-- The Distance collection right after `init`. -/
lemma init_distDocs : GNCDatabase.init.distDocs =
    [⟨"1", "-1", "0"⟩, ⟨"2", "-1", "0"⟩, ⟨"3", "-1", "0"⟩, ⟨"4", "-1", "0"⟩] := by
  decide

/-- The Speed collection right after `init`. -/
lemma init_speedDocs : GNCDatabase.init.speedDocs =
    [⟨"1", "-1", "0"⟩, ⟨"2", "-1", "0"⟩, ⟨"3", "-1", "0"⟩, ⟨"4", "-1", "0"⟩] := by
  decide

/-- A sensorId different from all four seeded ones matches no seeded document. -/
lemma findLast_seed_ne (sensorId : String)
    (h1 : sensorId ≠ "1") (h2 : sensorId ≠ "2") (h3 : sensorId ≠ "3") (h4 : sensorId ≠ "4") :
    findLastBySensor
      [⟨"1", "-1", "0"⟩, ⟨"2", "-1", "0"⟩, ⟨"3", "-1", "0"⟩, ⟨"4", "-1", "0"⟩] sensorId
      = none := by
  have e1 : (("1" : String) == sensorId) = false := beq_eq_false_iff_ne.mpr (Ne.symm h1)
  have e2 : (("2" : String) == sensorId) = false := beq_eq_false_iff_ne.mpr (Ne.symm h2)
  have e3 : (("3" : String) == sensorId) = false := beq_eq_false_iff_ne.mpr (Ne.symm h3)
  have e4 : (("4" : String) == sensorId) = false := beq_eq_false_iff_ne.mpr (Ne.symm h4)
  simp [findLastBySensor, List.find?, e1, e2, e3, e4]

/-! ## Claim theorems -/

/-- C1: for every metric and every sensorId `s`, after any prior state (hence
after any sequence of appends whose most recent append to `s` carries value
`v` and sequence number `n`), the corresponding `readLast*` returns
`{sensorValue := v, seqNum := n}` — the most recent append, never an earlier
one. -/
theorem latest_reflects_most_recent_append
    (databaseName : String) (db : GNCState) (s v n : String) :
    GNCDatabase.readLastTemp databaseName (GNCDatabase.writeTemp db s v n) s = .ok ⟨v, n⟩
    ∧ GNCDatabase.readLastDist databaseName (GNCDatabase.writeDist db s v n) s = .ok ⟨v, n⟩
    ∧ GNCDatabase.readLastSpeed databaseName (GNCDatabase.writeSpeed db s v n) s
        = .ok ⟨v, n⟩ := by
  refine ⟨?_, ?_, ?_⟩ <;>
    simp [GNCDatabase.readLastTemp, GNCDatabase.readLastTempGen,
      GNCDatabase.readLastDist, GNCDatabase.readLastDistGen,
      GNCDatabase.readLastSpeed, GNCDatabase.readLastSpeedGen,
      GNCDatabase.writeTemp, GNCDatabase.writeDist, GNCDatabase.writeSpeed,
      findLastBySensor]

/-- C2 (counterexample): for each of the three metrics, a read of sensor 99
with no Reading for it does not respond 404 with code `NOT_FOUND`; it responds
500 with code `INTERNAL` and a message that names the metric, not the
sensorId — each `readLast*` catch block replaces the inner not-found throw
with a plain string, which is not a domain error. -/
theorem unknown_sensor_500_counterexample :
    getTemp "gnc" GNCDatabase.init (some "99")
      = ⟨SERVER_ERROR, .reportJson ⟨SERVER_ERROR, "INTERNAL",
          "One or more errors in reading Database: gnc Collection: temperature"⟩⟩
    ∧ (getTemp "gnc" GNCDatabase.init (some "99")).status ≠ NOT_FOUND
    ∧ getDist "gnc" GNCDatabase.init (some "99")
      = ⟨SERVER_ERROR, .reportJson ⟨SERVER_ERROR, "INTERNAL",
          "One or more errors in reading Database: gnc Collection: distance"⟩⟩
    ∧ (getDist "gnc" GNCDatabase.init (some "99")).status ≠ NOT_FOUND
    ∧ getSpeed "gnc" GNCDatabase.init (some "99")
      = ⟨SERVER_ERROR, .reportJson ⟨SERVER_ERROR, "INTERNAL",
          "One or more errors in reading Database: gnc Collection: speed"⟩⟩
    ∧ (getSpeed "gnc" GNCDatabase.init (some "99")).status ≠ NOT_FOUND := by
  exact ⟨by decide, by decide, by decide, by decide, by decide, by decide⟩

/-- C2 (amended): for every metric, when no Reading matches the requested
sensorId, `readLast*` fails with the non-domain string
`One or more errors in reading Database: <db> Collection: <metric>`, and the
corresponding read route responds 500 with JSON
`{status: 500, code: "INTERNAL"}` whose message contains the metric name but
not the sensorId. -/
theorem unknown_sensor_500_all_metrics (databaseName : String) (db : GNCState)
    (sensorId : String) (hlen : sensorId.length ≠ 0)
    (hT : findLastBySensor db.tempDocs sensorId = none)
    (hD : findLastBySensor db.distDocs sensorId = none)
    (hS : findLastBySensor db.speedDocs sensorId = none) :
    GNCDatabase.readLastTemp databaseName db sensorId
      = .error (.nonDomain (readFailureMsg databaseName "temperature"))
    ∧ GNCDatabase.readLastDist databaseName db sensorId
      = .error (.nonDomain (readFailureMsg databaseName "distance"))
    ∧ GNCDatabase.readLastSpeed databaseName db sensorId
      = .error (.nonDomain (readFailureMsg databaseName "speed"))
    ∧ getTemp databaseName db (some sensorId)
      = ⟨SERVER_ERROR, .reportJson ⟨SERVER_ERROR, "INTERNAL",
          readFailureMsg databaseName "temperature"⟩⟩
    ∧ getDist databaseName db (some sensorId)
      = ⟨SERVER_ERROR, .reportJson ⟨SERVER_ERROR, "INTERNAL",
          readFailureMsg databaseName "distance"⟩⟩
    ∧ getSpeed databaseName db (some sensorId)
      = ⟨SERVER_ERROR, .reportJson ⟨SERVER_ERROR, "INTERNAL",
          readFailureMsg databaseName "speed"⟩⟩ := by
  have hreadT : GNCDatabase.readLastTemp databaseName db sensorId
      = .error (.nonDomain (readFailureMsg databaseName "temperature")) := by
    simp [GNCDatabase.readLastTemp, GNCDatabase.readLastTempGen, hT]
  have hreadD : GNCDatabase.readLastDist databaseName db sensorId
      = .error (.nonDomain (readFailureMsg databaseName "distance")) := by
    simp [GNCDatabase.readLastDist, GNCDatabase.readLastDistGen, hD]
  have hreadS : GNCDatabase.readLastSpeed databaseName db sensorId
      = .error (.nonDomain (readFailureMsg databaseName "speed")) := by
    simp [GNCDatabase.readLastSpeed, GNCDatabase.readLastSpeedGen, hS]
  have hmiss : paramMissing (some sensorId) = false := by
    simp [paramMissing, hlen]
  refine ⟨hreadT, hreadD, hreadS, ?_, ?_, ?_⟩
  · simp [getTemp, hmiss, hreadT, sendReport, getError]
  · simp [getDist, hmiss, hreadD, sendReport, getError]
  · simp [getSpeed, hmiss, hreadS, sendReport, getError]

/-- C2 (amended, witness): instantiated at the seeded database and sensor 99,
for the temperature and speed paths. -/
theorem unknown_sensor_500_all_metrics_witness :
    GNCDatabase.readLastTemp "gnc" GNCDatabase.init "99"
      = .error (.nonDomain (readFailureMsg "gnc" "temperature"))
    ∧ getTemp "gnc" GNCDatabase.init (some "99")
      = ⟨SERVER_ERROR, .reportJson ⟨SERVER_ERROR, "INTERNAL",
          readFailureMsg "gnc" "temperature"⟩⟩
    ∧ getDist "gnc" GNCDatabase.init (some "99")
      = ⟨SERVER_ERROR, .reportJson ⟨SERVER_ERROR, "INTERNAL",
          readFailureMsg "gnc" "distance"⟩⟩
    ∧ getSpeed "gnc" GNCDatabase.init (some "99")
      = ⟨SERVER_ERROR, .reportJson ⟨SERVER_ERROR, "INTERNAL",
          readFailureMsg "gnc" "speed"⟩⟩ :=
  have h := unknown_sensor_500_all_metrics "gnc" GNCDatabase.init "99"
    (by decide) (by decide) (by decide) (by decide)
  ⟨h.1, h.2.2.2.1, h.2.2.2.2.1, h.2.2.2.2.2⟩

/-- C3 (counterexample): the claim fails in both halves. After `clearAll`
(`clear`), nothing is re-seeded, so `latest(1)` does not return the seeded
default even though 1 ∈ {1,2,3,4}; and in the seeded state, `latest(5)` fails
with a non-domain string error, not a domain `NOT_FOUND` error. -/
theorem seeded_default_counterexample :
    GNCDatabase.readLastTemp "gnc" (GNCDatabase.clear GNCDatabase.init) "1"
      ≠ .ok ⟨"-1", "0"⟩
    ∧ GNCDatabase.readLastTemp "gnc" GNCDatabase.init "5"
      = .error (.nonDomain "One or more errors in reading Database: gnc Collection: temperature")
    ∧ (∀ errorCode message, GNCDatabase.readLastTemp "gnc" GNCDatabase.init "5"
        ≠ .error (.domain errorCode message)) := by
  refine ⟨by decide, by decide, fun errorCode message => ?_⟩
  intro hcontra
  simp [GNCDatabase.readLastTemp, GNCDatabase.readLastTempGen, findLastBySensor,
    GNCDatabase.init, GNCDatabase.writeTemp, GNCDatabase.writeDist,
    GNCDatabase.writeSpeed, List.find?, readFailureMsg] at hcontra

/-- C3 (amended): in the freshly seeded state (after `init`, before any append
or clear), `latest(S)` returns `{value := "-1", seqNum := "0"}` for every
metric when S ∈ {1,2,3,4}, and fails with the generic non-domain read-error
string for every other S; after `clearAll` the collections are dropped and not
re-seeded, so `latest` fails for every S. -/
theorem seeded_defaults_after_init (databaseName sensorId : String)
    (h1 : sensorId ≠ "1") (h2 : sensorId ≠ "2")
    (h3 : sensorId ≠ "3") (h4 : sensorId ≠ "4") :
    (∀ s ∈ (["1", "2", "3", "4"] : List String),
      GNCDatabase.readLastTemp databaseName GNCDatabase.init s = .ok ⟨"-1", "0"⟩
      ∧ GNCDatabase.readLastDist databaseName GNCDatabase.init s = .ok ⟨"-1", "0"⟩
      ∧ GNCDatabase.readLastSpeed databaseName GNCDatabase.init s = .ok ⟨"-1", "0"⟩)
    ∧ GNCDatabase.readLastTemp databaseName GNCDatabase.init sensorId
        = .error (.nonDomain (readFailureMsg databaseName "temperature"))
    ∧ GNCDatabase.readLastDist databaseName GNCDatabase.init sensorId
        = .error (.nonDomain (readFailureMsg databaseName "distance"))
    ∧ GNCDatabase.readLastSpeed databaseName GNCDatabase.init sensorId
        = .error (.nonDomain (readFailureMsg databaseName "speed"))
    ∧ ∀ s2 : String,
        GNCDatabase.readLastTemp databaseName (GNCDatabase.clear GNCDatabase.init) s2
          = .error (.nonDomain (readFailureMsg databaseName "temperature"))
        ∧ GNCDatabase.readLastDist databaseName (GNCDatabase.clear GNCDatabase.init) s2
          = .error (.nonDomain (readFailureMsg databaseName "distance"))
        ∧ GNCDatabase.readLastSpeed databaseName (GNCDatabase.clear GNCDatabase.init) s2
          = .error (.nonDomain (readFailureMsg databaseName "speed")) := by
  have hnone := findLast_seed_ne sensorId h1 h2 h3 h4
  refine ⟨?_, ?_, ?_, ?_, ?_⟩
  · intro s hs
    fin_cases hs <;> exact ⟨rfl, rfl, rfl⟩
  · simp [GNCDatabase.readLastTemp, GNCDatabase.readLastTempGen, init_tempDocs, hnone]
  · simp [GNCDatabase.readLastDist, GNCDatabase.readLastDistGen, init_distDocs, hnone]
  · simp [GNCDatabase.readLastSpeed, GNCDatabase.readLastSpeedGen, init_speedDocs, hnone]
  · intro s2
    exact ⟨rfl, rfl, rfl⟩

/-- C3 (amended, witness): instantiated at sensorId 5. -/
theorem seeded_defaults_after_init_witness :
    GNCDatabase.readLastTemp "gnc" GNCDatabase.init "2" = .ok ⟨"-1", "0"⟩
    ∧ GNCDatabase.readLastSpeed "gnc" GNCDatabase.init "5"
        = .error (.nonDomain (readFailureMsg "gnc" "speed"))
    ∧ GNCDatabase.readLastTemp "gnc" (GNCDatabase.clear GNCDatabase.init) "2"
        = .error (.nonDomain (readFailureMsg "gnc" "temperature")) :=
  have h := seeded_defaults_after_init "gnc" "5"
    (by decide) (by decide) (by decide) (by decide)
  ⟨(h.1 "2" (by simp)).1, h.2.2.2.1, (h.2.2.2.2 "2").1⟩

/-- C4 (code bug): the `/clearDB` route invokes `pcDatabase.clearDatabase()`,
but no method of that name is declared on `GNCDatabase` (the clearing method
is `clear`), so the call throws a TypeError, the route answers `"BAD"` in
every state, and the collections are never dropped. -/
theorem clearDB_route_always_bad :
    gncDatabaseMethodNames.contains "clearDatabase" = false
    ∧ gncDatabaseMethodNames.contains "clear" = true
    ∧ clearDatabase ⟨GNCDatabase.init, []⟩
        = (⟨OK, .plainText "BAD"⟩, ⟨GNCDatabase.init, []⟩)
    ∧ ∀ st : ServerState, clearDatabase st = (⟨OK, .plainText "BAD"⟩, st) := by
  exact ⟨by decide, by decide, by decide, fun st => rfl⟩

/-- C5: whenever `sensorId`, `value` or `seqNum` is absent or the empty string,
each write route answers 400 `BAD_REQUEST` and returns the server state
unchanged — no Reading is inserted and no FileWriter side-log entry is
written, because the validation throw happens before either call. -/
theorem write_route_validation_guards (st : ServerState) (q : Query)
    (h : paramMissing q.sensorId = true ∨ paramMissing q.value = true
        ∨ paramMissing q.seqNum = true) :
    setTemp st q = (⟨BAD_REQUEST, .reportJson ⟨BAD_REQUEST, "BAD_REQUEST",
        "Incorrect url, try like > /temp?sensorId=1&value=26&seqNum=0"⟩⟩, st)
    ∧ setDist st q = (⟨BAD_REQUEST, .reportJson ⟨BAD_REQUEST, "BAD_REQUEST",
        "Incorrect url, try like > /dist?sensorId=1&value=26&seqNum=0"⟩⟩, st)
    ∧ setSpeed st q = (⟨BAD_REQUEST, .reportJson ⟨BAD_REQUEST, "BAD_REQUEST",
        "Incorrect url, try like > /speed?sensorId=1&value=26&seqNum=0"⟩⟩, st) := by
  have hcond : (paramMissing q.sensorId || paramMissing q.value
      || paramMissing q.seqNum) = true := by
    rcases h with h | h | h <;> simp [h]
  refine ⟨?_, ?_, ?_⟩ <;> simp [setTemp, setDist, setSpeed, hcond, sendReport, getError]

/-- C5 (witness): an empty `value` query parameter on the seeded state. -/
theorem write_route_validation_guards_witness :
    setTemp ⟨GNCDatabase.init, []⟩ ⟨some "1", some "", some "5"⟩
      = (⟨BAD_REQUEST, .reportJson ⟨BAD_REQUEST, "BAD_REQUEST",
          "Incorrect url, try like > /temp?sensorId=1&value=26&seqNum=0"⟩⟩,
         ⟨GNCDatabase.init, []⟩) :=
  (write_route_validation_guards ⟨GNCDatabase.init, []⟩ ⟨some "1", some "", some "5"⟩
    (Or.inr (Or.inl (by decide)))).1

/-- C6: `init` creates the collections named Temperature, Distance and Speed
and seeds each with exactly the four default Readings for sensorIds 1-4, each
with value `-1` and sequence number `0`. -/
theorem init_creates_and_seeds :
    initCollectionNames = ["Temperature", "Distance", "Speed"]
    ∧ GNCDatabase.init.tempDocs =
        [⟨"1", "-1", "0"⟩, ⟨"2", "-1", "0"⟩, ⟨"3", "-1", "0"⟩, ⟨"4", "-1", "0"⟩]
    ∧ GNCDatabase.init.distDocs =
        [⟨"1", "-1", "0"⟩, ⟨"2", "-1", "0"⟩, ⟨"3", "-1", "0"⟩, ⟨"4", "-1", "0"⟩]
    ∧ GNCDatabase.init.speedDocs =
        [⟨"1", "-1", "0"⟩, ⟨"2", "-1", "0"⟩, ⟨"3", "-1", "0"⟩, ⟨"4", "-1", "0"⟩]
    ∧ GNCDatabase.init.tempDocs.map Reading.sensorID = ["1", "2", "3", "4"]
    ∧ GNCDatabase.init.tempDocs.length = 4 := by
  exact ⟨rfl, init_tempDocs, init_distDocs, init_speedDocs, by decide, by decide⟩

/-- C7: `getError` maps domain errors with code `NOT_FOUND` to 404, `EXISTS`
to 409, every other domain error code to 400 (keeping the code and message),
and every non-domain thrown value to 500 with code `INTERNAL`. -/
theorem getError_status_mapping :
    (∀ message, getError (.domain "NOT_FOUND" message)
        = ⟨NOT_FOUND, "NOT_FOUND", message⟩)
    ∧ (∀ message, getError (.domain "EXISTS" message)
        = ⟨CONFLICT, "EXISTS", message⟩)
    ∧ (∀ errorCode message, errorCode ≠ "NOT_FOUND" → errorCode ≠ "EXISTS" →
        getError (.domain errorCode message) = ⟨BAD_REQUEST, errorCode, message⟩)
    ∧ (∀ s, getError (.nonDomain s) = ⟨SERVER_ERROR, "INTERNAL", s⟩) := by
  refine ⟨fun message => rfl, fun message => rfl,
    fun errorCode message hc1 hc2 => ?_, fun s => rfl⟩
  simp [getError, hc1, hc2]

/-- C7 (witness): the missing-parameter code `BAD_REQUEST` maps to 400. -/
theorem getError_status_mapping_witness :
    getError (.domain "BAD_REQUEST" "Incorrect url, try like > /temp/1")
      = ⟨BAD_REQUEST, "BAD_REQUEST", "Incorrect url, try like > /temp/1"⟩ :=
  getError_status_mapping.2.2.1 "BAD_REQUEST" "Incorrect url, try like > /temp/1"
    (by decide) (by decide)

/-- C8 (counterexample): for each of the three metrics, an underlying I/O
fault and a missing Reading produce the very same thrown value — the generic
read-failure string of that metric — so the two failure modes are not
distinguishable by the caller. -/
theorem read_fault_equals_not_found_counterexample :
    GNCDatabase.readLastTempGen true "gnc" GNCDatabase.init "1"
      = GNCDatabase.readLastTempGen false "gnc" GNCDatabase.init "99"
    ∧ GNCDatabase.readLastTempGen true "gnc" GNCDatabase.init "1"
      = .error (.nonDomain (readFailureMsg "gnc" "temperature"))
    ∧ GNCDatabase.readLastDistGen true "gnc" GNCDatabase.init "1"
      = GNCDatabase.readLastDistGen false "gnc" GNCDatabase.init "99"
    ∧ GNCDatabase.readLastDistGen true "gnc" GNCDatabase.init "1"
      = .error (.nonDomain (readFailureMsg "gnc" "distance"))
    ∧ GNCDatabase.readLastSpeedGen true "gnc" GNCDatabase.init "1"
      = GNCDatabase.readLastSpeedGen false "gnc" GNCDatabase.init "99"
    ∧ GNCDatabase.readLastSpeedGen true "gnc" GNCDatabase.init "1"
      = .error (.nonDomain (readFailureMsg "gnc" "speed")) := by
  exact ⟨by decide, by decide, by decide, by decide, by decide, by decide⟩

/-- C8 (amended): for every metric, on an underlying I/O fault `readLast*`
fails with the generic non-domain string `One or more errors in reading
Database: <db> Collection: <metric>`, which is exactly the error produced when
no Reading exists for the sensorId — each catch block collapses both failure
modes into one value. -/
theorem read_fault_generic_error (databaseName : String) (db db2 : GNCState)
    (s s2 : String)
    (hT : findLastBySensor db2.tempDocs s2 = none)
    (hD : findLastBySensor db2.distDocs s2 = none)
    (hS : findLastBySensor db2.speedDocs s2 = none) :
    GNCDatabase.readLastTempGen true databaseName db s
      = .error (.nonDomain (readFailureMsg databaseName "temperature"))
    ∧ GNCDatabase.readLastDistGen true databaseName db s
      = .error (.nonDomain (readFailureMsg databaseName "distance"))
    ∧ GNCDatabase.readLastSpeedGen true databaseName db s
      = .error (.nonDomain (readFailureMsg databaseName "speed"))
    ∧ GNCDatabase.readLastTempGen false databaseName db2 s2
      = GNCDatabase.readLastTempGen true databaseName db s
    ∧ GNCDatabase.readLastDistGen false databaseName db2 s2
      = GNCDatabase.readLastDistGen true databaseName db s
    ∧ GNCDatabase.readLastSpeedGen false databaseName db2 s2
      = GNCDatabase.readLastSpeedGen true databaseName db s := by
  refine ⟨rfl, rfl, rfl, ?_, ?_, ?_⟩
  · simp [GNCDatabase.readLastTempGen, hT]
  · simp [GNCDatabase.readLastDistGen, hD]
  · simp [GNCDatabase.readLastSpeedGen, hS]

/-- C8 (amended, witness): for each metric, a faulting read on the seeded
state and a clean read of the unseeded sensor 99 give the same error. -/
theorem read_fault_generic_error_witness :
    GNCDatabase.readLastTempGen false "gnc" GNCDatabase.init "99"
      = GNCDatabase.readLastTempGen true "gnc" GNCDatabase.init "1"
    ∧ GNCDatabase.readLastDistGen false "gnc" GNCDatabase.init "99"
      = GNCDatabase.readLastDistGen true "gnc" GNCDatabase.init "1"
    ∧ GNCDatabase.readLastSpeedGen false "gnc" GNCDatabase.init "99"
      = GNCDatabase.readLastSpeedGen true "gnc" GNCDatabase.init "1" :=
  have h := read_fault_generic_error "gnc" GNCDatabase.init GNCDatabase.init "1" "99"
    (by decide) (by decide) (by decide)
  ⟨h.2.2.2.1, h.2.2.2.2.1, h.2.2.2.2.2⟩

/-- C9: `close` with no connection assigned is a no-op that produces no error,
and a second `close` immediately after any successful `close` also produces no
error (the driver treats closing an already-closed client as a no-op). -/
theorem close_idempotent :
    (∀ c : ConnState, c.mongoDBConnection = none → GNCDatabase.close c = .ok c)
    ∧ (∀ c c2 : ConnState, GNCDatabase.close c = .ok c2 →
        (GNCDatabase.close c2).isOk = true) := by
  constructor
  · intro c hc
    simp [GNCDatabase.close, hc]
  · intro c c2 hc
    rcases c with ⟨_ | b⟩
    · simp [GNCDatabase.close] at hc
      simp [← hc, GNCDatabase.close, Except.isOk, Except.toBool]
    · simp [GNCDatabase.close, mongoClientClose] at hc
      simp [← hc, GNCDatabase.close, mongoClientClose, Except.isOk, Except.toBool]

/-- C9 (witness): instantiated at the never-connected instance and at an open
connection closed twice. -/
theorem close_idempotent_witness :
    GNCDatabase.close ⟨none⟩ = .ok ⟨none⟩
    ∧ (GNCDatabase.close ⟨some false⟩).isOk = true :=
  ⟨close_idempotent.1 ⟨none⟩ rfl, close_idempotent.2 ⟨some true⟩ ⟨some false⟩ rfl⟩

/-- C10: construction is not a deterministic function of the connection string.
Both module-level regexes carry the `g` flag and retain `lastIndex` between
`exec` calls, so for the valid connection string
`mongodb://localhost:27017/gnc` a first construction succeeds (parsing
database name `gnc` and server URL `mongodb://localhost:27017`) while a second
construction with the identical string fails: `exec` resumes at the stored
`lastIndex`, finds no match, returns `null`, and the array destructuring
throws. -/
theorem constructor_global_regex_nondeterminism :
    GNCDatabase.construct "mongodb://localhost:27017/gnc" ⟨0, 0⟩
      = (some ⟨"gnc", "mongodb://localhost:27017"⟩, ⟨29, 26⟩)
    ∧ (GNCDatabase.construct "mongodb://localhost:27017/gnc"
        (GNCDatabase.construct "mongodb://localhost:27017/gnc" ⟨0, 0⟩).2).1
      = none := by
  exact ⟨by decide, by decide⟩
